import Mathlib

/-!
Verification of the TianShu Mamba interpreter driver against its
natural-language specification.

The development shallowly embeds the visible source of the repository:
the execution driver `execute` and the keyword-remap engine
`apply_random_keywords` from `tianshu_core/mamba/mamba/__init__.py`, and
the seeded entry flow of `tianshu_core/mamba/mamba.py`.  The lexer,
parser, evaluator, environment and symbol-table module bodies are not
part of the visible source; where a claim depends on them they are
modelled from the specification, and each such definition carries a doc
comment saying so.

Machine conventions of the embedding:
* Python module-level globals (the symbol table, the lexer's reserved
  table, the I/O handlers, the PRNG state of the `random` module, the
  parser's warnings flag) become an explicit `ModuleState` value that
  every call threads and returns.
* Output/input handler *functions* are modelled by opaque identities
  (`Option Nat`); the messages a run delivers to the currently installed
  handler are collected in an explicit event log.
* Wall-clock time is abstracted to a monotone tick counter: every
  statement entry (and hence every loop re-entry) advances it by one.
* Python exceptions become an explicit error result that carries the
  mutated state with it, matching the fact that Python exceptions do not
  roll back side effects.
-/

/-- Errors of the interpreter.  `InterpreterException` is raised by the
visible source (`apply_random_keywords`); `DuplicateSymbol` and its
message text are pinned by `src/tests/test_mamba_interpreter.py`.
The remaining class names are modelled from the spec: the error
taxonomy of section 7 for the module bodies absent from the visible
source. -/
inductive MambaError where
  | DuplicateSymbol (msg : String)
  | UnknownSymbol (msg : String)
  | ArithmeticError (msg : String)
  | TypeErr (msg : String)
  | TimeoutErr (msg : String)
  | LexicalError (msg : String)
  | ParseError (msg : String)
  | InterpreterException (msg : String)
  deriving DecidableEq, Repr

/-- Decidable equality for `Except` results, so that concrete runs can
be checked by `decide`. -/
instance {ε α : Type} [DecidableEq ε] [DecidableEq α] :
    DecidableEq (Except ε α) := fun a b =>
  match a, b with
  | .error e, .error f =>
    if h : e = f then isTrue (by rw [h])
    else isFalse (by intro hh; cases hh; exact h rfl)
  | .ok x, .ok y =>
    if h : x = y then isTrue (by rw [h])
    else isFalse (by intro hh; cases hh; exact h rfl)
  | .error _, .ok _ => isFalse (by intro hh; cases hh)
  | .ok _, .error _ => isFalse (by intro hh; cases hh)

/-- The Python `e.__class__.__name__` of an error, as used by the
driver's diagnostic formatting. -/
def className : MambaError → String
  | .DuplicateSymbol _ => "DuplicateSymbol"
  | .UnknownSymbol _ => "UnknownSymbol"
  | .ArithmeticError _ => "ArithmeticError"
  | .TypeErr _ => "TypeError"
  | .TimeoutErr _ => "TimeoutError"
  | .LexicalError _ => "LexicalError"
  | .ParseError _ => "ParseError"
  | .InterpreterException _ => "InterpreterException"

/-- The Python `str(e)` of an error. -/
def errMessage : MambaError → String
  | .DuplicateSymbol m => m
  | .UnknownSymbol m => m
  | .ArithmeticError m => m
  | .TypeErr m => m
  | .TimeoutErr m => m
  | .LexicalError m => m
  | .ParseError m => m
  | .InterpreterException m => m

/-- Diagnostic string built by the driver's handler branch:
`f"{e.__class__.__name__}: {str(e)}"`. -/
def formatError (e : MambaError) : String :=
  className e ++ ": " ++ errMessage e

/-- `beginsWith pre s` decides whether `s` starts with the prefix `pre`
(character-list comparison, used to state the error-kind prefix claims). -/
def beginsWith (pre s : String) : Bool :=
  decide (s.data.take pre.data.length = pre.data)

/-- Modelled from the spec: runtime values of the language
(section 3's `RuntimeValue` tagged union, restricted to the variants
the claims exercise; floats carry no claim and are omitted). -/
inductive RuntimeValue where
  | intV (n : Int)
  | strV (s : String)
  | boolV (b : Bool)
  | nilV
  deriving DecidableEq, Repr

/-- Modelled from the spec: binary operators of the expression grammar
(section 4.3). -/
inductive BinOp where
  | add
  | sub
  | mul
  | div
  | eqOp
  | ltOp
  deriving DecidableEq, Repr

/-- Modelled from the spec: expressions of the language
(section 4.3; `ask` carries no claim here and is omitted). -/
inductive Expr where
  | intLit (n : Int)
  | strLit (s : String)
  | boolLit (b : Bool)
  | ident (n : String)
  | binop (op : BinOp) (l r : Expr)
  deriving DecidableEq, Repr

/-- Modelled from the spec: statements of the language (section 4.3).
A parsed program is one `Stmt`; top-level statement sequences are
`seq` chains. -/
inductive Stmt where
  | skip
  | seq (a b : Stmt)
  | assign (n : String) (e : Expr)
  | say (e : Expr)
  | ifelse (c : Expr) (a b : Stmt)
  | whileS (c : Expr) (body : Stmt)
  deriving DecidableEq, Repr

/-- One step of Python `dict` construction: inserting a key that is
already present updates its value in place (keeping its position),
otherwise the pair is appended at the end (insertion order). -/
def dictInsert {α β : Type} [DecidableEq α] (d : List (α × β)) (k : α) (v : β) :
    List (α × β) :=
  if k ∈ d.map Prod.fst then
    d.map (fun p => if p.1 = k then (k, v) else p)
  else
    d ++ [(k, v)]

/-- Python `dict(pairs)`: left-to-right insertion with later duplicates
overriding earlier ones. -/
def dictOfPairs {α β : Type} [DecidableEq α] (pairs : List (α × β)) :
    List (α × β) :=
  pairs.foldl (fun d p => dictInsert d p.1 p.2) []

/-- Modelled from the spec: the CPython Mersenne-Twister generator state
is abstracted to a `Nat`; one draw is a 64-bit linear-congruential step.
What the claims rely on is only that the generator is a deterministic
function of the seed. -/
def lcgNext (g : Nat) : Nat :=
  (6364136223846793005 * g + 1442695040888963407) % 18446744073709551616

/-- Modelled from the spec: `random.seed(s)` resets the module PRNG
state to a value determined by the seed alone. -/
def seedInit (seed : Nat) : Nat :=
  lcgNext (seed % 18446744073709551616)

/-- Core of the shuffle: with fuel equal to the list length, repeatedly
draw an index from the generator and move that element to the front of
the result.  Returns the shuffled list and the final generator state. -/
def shuffleGo {α : Type} : Nat → Nat → List α → List α × Nat
  | 0, g, _ => ([], g)
  | n + 1, g, l =>
    let i := g % l.length
    match l[i]? with
    | none => ([], g)
    | some x =>
      let r := shuffleGo n (lcgNext g) (l.eraseIdx i)
      (x :: r.1, r.2)

/-- Modelled from the spec: `random.shuffle` as a deterministic
permutation of the list driven by the module PRNG state, returning the
updated generator state. -/
def pyShuffleSt {α : Type} (g : Nat) (l : List α) : List α × Nat :=
  shuffleGo l.length g l

/-- The shuffled list alone. -/
def pyShuffle {α : Type} (g : Nat) (l : List α) : List α :=
  (pyShuffleSt g l).1

/-- The module-level mutable state of the interpreter process:
the global symbol table (`mamba.ast.symbols`, split into declared
functions and variable bindings), the lexer's reserved-word table,
the `random` module PRNG state, the handlers stored in `mamba.ast`,
and the parser's warnings flag. -/
structure ModuleState where
  symbols_functions : List String
  symbols_vars : List (String × RuntimeValue)
  reserved : List (String × String)
  randState : Nat
  output_handler : Option Nat
  input_handler : Option Nat
  disable_warnings : Bool
  deriving DecidableEq, Repr

/-- Modelled from the spec: the lexer's `_original_reserved` table
(surface keyword → token-kind string) for the language's original
keyword set; the tests pin that `"say"` maps to `"PRINT"` and `"if"`
to `"IF"`, the remaining kinds follow the grammar of section 4.3.
Token kinds are pairwise distinct, per the data-model invariant. -/
def _original_reserved : List (String × String) :=
  [("say", "PRINT"), ("if", "IF"), ("else", "ELSE"), ("while", "WHILE"),
   ("function", "FUNCTION"), ("return", "RETURN"), ("true", "TRUE"),
   ("false", "FALSE")]

/-- The keyword-remap engine, translated from `apply_random_keywords` in
`tianshu_core/mamba/mamba/__init__.py`: seed the module PRNG with the
given seed, shuffle the catalog, fail if the catalog is shorter than the
original keyword table, otherwise zip the first `n` shuffled words with
the original token kinds, build the new reserved dict and install it.
The keyword file load is abstracted to the `catalog` argument, and the
original reserved table to the `orig` argument. -/
def apply_random_keywords (orig : List (String × String))
    (catalog : List String) (seed : Nat) (st : ModuleState) :
    Except MambaError (ModuleState × List String) :=
  let st1 : ModuleState := { st with randState := seedInit seed }
  let p := pyShuffleSt st1.randState catalog
  let st2 : ModuleState := { st1 with randState := p.2 }
  let keywords := p.1
  let original_token_types := orig.map Prod.snd
  let num_original_keywords := original_token_types.length
  if keywords.length < num_original_keywords then
    .error (.InterpreterException
      ("Keyword file is too short: Expected at least "
        ++ toString num_original_keywords ++ " keywords, got "
        ++ toString keywords.length ++ "."))
  else
    let keywords_to_use := keywords.take num_original_keywords
    let new_reserved_map :=
      dictOfPairs (List.zip keywords_to_use original_token_types)
    .ok ({ st2 with reserved := new_reserved_map }, keywords)

/-- View of a remap-build result keeping only what is observable to the
rest of the interpreter: the installed reserved map and the returned
keyword list (the module state fields other than the map are the prior
ambient state). -/
def resultView :
    Except MambaError (ModuleState × List String) →
    Except MambaError (List (String × String) × List String)
  | .error e => .error e
  | .ok (st, ks) => .ok (st.reserved, ks)

/-- The event log of one run: `handlerEvents` are the
`(message, stream)` calls delivered to the installed output handler,
`consoleEvents` the fallback prints to the real standard streams when
no handler is installed. -/
structure RunLog where
  handlerEvents : List (String × String)
  consoleEvents : List (String × String)
  deriving DecidableEq, Repr

/-- The state threaded through one evaluation: the module globals, the
run's event log, and the abstract clock. -/
structure EvalSt where
  mstate : ModuleState
  log : RunLog
  time : Nat
  deriving DecidableEq, Repr

/-- Result of an evaluation step.  Errors carry the state reached so
far, since Python exceptions do not undo side effects.  `fuelOut` is an
artifact of the fuel-indexed embedding and is proved unreachable for
sufficient fuel. -/
inductive ERes (α : Type) where
  | ok (a : α) (s : EvalSt)
  | err (e : MambaError) (s : EvalSt)
  | fuelOut (s : EvalSt)
  deriving DecidableEq, Repr

/-- The state component of any evaluation result. -/
def ERes.stateOf {α : Type} : ERes α → EvalSt
  | .ok _ s => s
  | .err _ s => s
  | .fuelOut s => s

/-- The error component of an evaluation result, if any. -/
def ERes.errorOf {α : Type} : ERes α → Option MambaError
  | .err e _ => some e
  | _ => none

/-- Whether the result is the fuel-exhaustion artifact. -/
def ERes.isFuelOut {α : Type} : ERes α → Bool
  | .fuelOut _ => true
  | _ => false

/-- Advance the abstract clock by one tick. -/
def tick (s : EvalSt) : EvalSt :=
  { s with time := s.time + 1 }

/-- Modelled from the spec: the per-statement deadline check of section
4.5 — if a deadline is configured and the clock has reached it, report
a timeout. -/
def timeoutError : MambaError :=
  .TimeoutErr "Maximum execution time exceeded"

/-- Check the configured deadline against the clock. -/
def checkTime (dl : Option Nat) (s : EvalSt) : Option MambaError :=
  match dl with
  | none => none
  | some d => if d ≤ s.time then some timeoutError else none

/-- Deliver a `(message, stream)` event through the currently installed
module output handler, or to the console when none is installed
(the evaluator's I/O indirection, section 4.5). -/
def emit (msg stream : String) (s : EvalSt) : EvalSt :=
  match s.mstate.output_handler with
  | some _ =>
    { s with log :=
        { s.log with handlerEvents := s.log.handlerEvents ++ [(msg, stream)] } }
  | none =>
    { s with log :=
        { s.log with consoleEvents := s.log.consoleEvents ++ [(msg, stream)] } }

/-- Look up a variable in the module-global symbol table. -/
def lookupVar (n : String) (s : EvalSt) : Option RuntimeValue :=
  (s.mstate.symbols_vars.find? (fun p => p.1 = n)).map Prod.snd

/-- Bind a variable in the module-global symbol table. -/
def setVar (n : String) (v : RuntimeValue) (s : EvalSt) : EvalSt :=
  { s with mstate :=
      { s.mstate with symbols_vars := dictInsert s.mstate.symbols_vars n v } }

/-- Modelled from the spec: the string a value prints as. -/
def toDisplayString : RuntimeValue → String
  | .intV n => toString n
  | .strV t => t
  | .boolV true => "true"
  | .boolV false => "false"
  | .nilV => "null"

/-- Modelled from the spec: binary operator semantics of section 4.5 —
integer arithmetic, string concatenation, comparisons; division by an
operand equal to zero raises the arithmetic error kind. -/
def applyBin : BinOp → RuntimeValue → RuntimeValue → Except MambaError RuntimeValue
  | .add, .intV a, .intV b => .ok (.intV (a + b))
  | .add, .strV a, .strV b => .ok (.strV (a ++ b))
  | .sub, .intV a, .intV b => .ok (.intV (a - b))
  | .mul, .intV a, .intV b => .ok (.intV (a * b))
  | .div, .intV a, .intV b =>
    if b = 0 then .error (.ArithmeticError "Division by zero")
    else .ok (.intV (a / b))
  | .eqOp, a, b => .ok (.boolV (decide (a = b)))
  | .ltOp, .intV a, .intV b => .ok (.boolV (decide (a < b)))
  | _, _, _ => .error (.TypeErr "Unsupported operand types")

/-- Modelled from the spec: expression evaluation (section 4.5,
depth-first, left-to-right); expressions read but do not mutate state. -/
def evalExpr : Expr → EvalSt → Except MambaError RuntimeValue
  | .intLit n, _ => .ok (.intV n)
  | .strLit t, _ => .ok (.strV t)
  | .boolLit b, _ => .ok (.boolV b)
  | .ident n, s =>
    match lookupVar n s with
    | some v => .ok v
    | none => .error (.UnknownSymbol ("name " ++ n ++ " is not defined"))
  | .binop op l r, s =>
    match evalExpr l s with
    | .error e => .error e
    | .ok lv =>
      match evalExpr r s with
      | .error e => .error e
      | .ok rv => applyBin op lv rv

/-- Modelled from the spec: condition truthiness. -/
def truthy : RuntimeValue → Except MambaError Bool
  | .boolV b => .ok b
  | .intV n => .ok (decide (n ≠ 0))
  | _ => .error (.TypeErr "Value is not a boolean")

/-- Modelled from the spec: the tree-walking statement evaluator of
section 4.5.  Every statement entry — and hence every loop re-entry —
first performs the deadline check and then advances the clock, which is
exactly the "once per statement execution and once per loop iteration"
obligation.  The `fuel` argument is the embedding's termination bound;
it is proved unreachable whenever it exceeds the remaining time budget. -/
def evalStmt (dl : Option Nat) : Nat → Stmt → EvalSt → ERes Unit
  | 0, _, s =>
    match checkTime dl s with
    | some e => .err e s
    | none => .fuelOut s
  | fuel + 1, stmt, s =>
    match checkTime dl s with
    | some e => .err e s
    | none =>
      let s1 := tick s
      match stmt with
      | .skip => .ok () s1
      | .seq a b =>
        match evalStmt dl fuel a s1 with
        | .ok _ s2 => evalStmt dl fuel b s2
        | r => r
      | .assign n e =>
        match evalExpr e s1 with
        | .error er => .err er s1
        | .ok v => .ok () (setVar n v s1)
      | .say e =>
        match evalExpr e s1 with
        | .error er => .err er s1
        | .ok v => .ok () (emit (toDisplayString v) "stdout" s1)
      | .ifelse c a b =>
        match evalExpr c s1 with
        | .error er => .err er s1
        | .ok v =>
          match truthy v with
          | .error er => .err er s1
          | .ok true => evalStmt dl fuel a s1
          | .ok false => evalStmt dl fuel b s1
      | .whileS c body =>
        match evalExpr c s1 with
        | .error er => .err er s1
        | .ok v =>
          match truthy v with
          | .error er => .err er s1
          | .ok false => .ok () s1
          | .ok true =>
            match evalStmt dl fuel body s1 with
            | .ok _ s2 => evalStmt dl fuel (.whileS c body) s2
            | r => r

/-- Modelled from the spec: declaring one builtin function in the
module-global symbol table; redeclaring a name already bound to a
function raises `DuplicateSymbol` with the message pinned by
`src/tests/test_mamba_interpreter.py` (section 4.4's intentionally
preserved quirk). -/
def declareFunction (n : String) (s : EvalSt) : ERes Unit :=
  if n ∈ s.mstate.symbols_functions then
    .err (.DuplicateSymbol ("Cannot redeclare function " ++ "'" ++ n ++ "'")) s
  else
    .ok () { s with mstate :=
      { s.mstate with symbols_functions := s.mstate.symbols_functions ++ [n] } }

/-- Declare a list of builtins in order, stopping at the first fault. -/
def declareAll : List String → EvalSt → ERes Unit
  | [], s => .ok () s
  | n :: rest, s =>
    match declareFunction n s with
    | .ok _ s1 => declareAll rest s1
    | r => r

/-- Modelled from the spec: the builtin names pre-registered by
`environment.declare_env` (section 4.4; the tests pin that `int` is
among them and conflicts first on re-registration). -/
def builtin_functions : List String :=
  ["int", "float", "str"]

/-- Modelled from the spec: `environment.declare_env(mamba.ast.symbols)`
— pre-register the builtin callables in the module-global symbol table. -/
def declare_env (s : EvalSt) : ERes Unit :=
  declareAll builtin_functions s

/-- A parser for the embedding: the lexer/parser bodies are not part of
the visible source, so the driver is stated generically over any
function from source text to a parse result (the driver never inspects
it beyond success or raised error). -/
abbrev ParseFun := String → Except MambaError Stmt

/-- The in-`try` body of `execute`: parse, pre-register builtins,
evaluate the program's statements in order. -/
def executePipeline (parse : ParseFun) (dl : Option Nat) (fuel : Nat)
    (source : String) (s : EvalSt) : ERes Unit :=
  match parse source with
  | .error e => .err e s
  | .ok prog =>
    match declare_env s with
    | .ok _ s1 => evalStmt dl fuel prog s1
    | r => r

/-- The module state as `execute` arranges it before entering its `try`
block: the warnings flag is stored, the supplied handlers are installed,
and the PRNG is reseeded when a seed was explicitly provided. -/
def runStateOf (st : ModuleState) (disable_warnings : Bool)
    (random_seed : Option Nat) (random_seed_was_set : Bool)
    (output_handler input_handler : Option Nat) : ModuleState :=
  let st0 : ModuleState := { st with disable_warnings := disable_warnings }
  let st1 : ModuleState :=
    { st0 with output_handler := output_handler, input_handler := input_handler }
  if random_seed_was_set then
    { st1 with randState := seedInit (random_seed.getD 0) }
  else st1

/-- Restore the two handler globals to previously saved values
(the driver's `finally` block). -/
def restoreHandlers (outH inH : Option Nat) (m : ModuleState) : ModuleState :=
  { m with output_handler := outH, input_handler := inH }

/-- The driver's translation of `max_execution_time_seconds` into a
deadline: Python truthiness means a value of `0` configures no deadline.
The clock starts at `0` at the beginning of each run. -/
def deadlineOf : Option Nat → Option Nat
  | some m => if m = 0 then none else some m
  | none => none

/-- Outcome of one `execute` call: the module state it leaves behind,
the events of the run, and the exception re-raised to the caller, if
any. -/
structure ExecOutcome where
  state : ModuleState
  log : RunLog
  raised : Option MambaError
  deriving DecidableEq, Repr

/-- The initial evaluation state `execute` builds for a run: the
prepared module state, an empty event log, and the clock at zero. -/
def initEvalSt (m : ModuleState) : EvalSt :=
  { mstate := m, log := { handlerEvents := [], consoleEvents := [] }, time := 0 }

/-- The execution driver, translated from `execute` in
`tianshu_core/mamba/mamba/__init__.py`: store the warnings flag, save
and install the handlers, configure the deadline, reseed the PRNG if
requested, run parse → builtin pre-registration → evaluation; on any
fault format `"{ClassName}: {message}"` and deliver it once via the
handler (or the console when no handler is supplied), re-raising it
only when warnings are enabled; finally restore the saved handlers.
`show_ast` is fixed to its default `False`. -/
def execute (parse : ParseFun) (st : ModuleState) (source : String)
    (disable_warnings : Bool) (random_seed : Option Nat)
    (random_seed_was_set : Bool) (output_handler input_handler : Option Nat)
    (max_execution_time_seconds : Option Nat) (fuel : Nat) : ExecOutcome :=
  let originalOut := st.output_handler
  let originalIn := st.input_handler
  match executePipeline parse (deadlineOf max_execution_time_seconds) fuel
      source (initEvalSt (runStateOf st disable_warnings random_seed
        random_seed_was_set output_handler input_handler)) with
  | .ok _ s =>
    { state := restoreHandlers originalOut originalIn s.mstate,
      log := s.log, raised := none }
  | .fuelOut s =>
    { state := restoreHandlers originalOut originalIn s.mstate,
      log := s.log, raised := none }
  | .err e s =>
    let log1 :=
      if output_handler.isSome then
        { s.log with handlerEvents := s.log.handlerEvents ++ [(formatError e, "stderr")] }
      else
        { s.log with consoleEvents := s.log.consoleEvents ++ [(formatError e, "stderr")] }
    { state := restoreHandlers originalOut originalIn s.mstate,
      log := log1,
      raised := if disable_warnings then none else some e }

/-- The seeded entry flow of `tianshu_core/mamba/mamba.py` `main`:
apply the keyword remap first and, only if that succeeded, call
`execute` (main passes no handlers and the warnings default).  An
`error` result means `execute` was never entered. -/
def mainRun (orig : List (String × String)) (catalog : List String)
    (seed : Nat) (parse : ParseFun) (st : ModuleState) (source : String)
    (max_execution_time : Option Nat) (fuel : Nat) :
    Except MambaError ExecOutcome :=
  match apply_random_keywords orig catalog seed st with
  | .error e => .error e
  | .ok (st1, _keywords) =>
    .ok (execute parse st1 source true (some seed) true none none
      max_execution_time fuel)

/-- A fresh interpreter process: empty symbol table, the original
reserved table installed, no handlers. -/
def initState : ModuleState :=
  { symbols_functions := [], symbols_vars := [],
    reserved := _original_reserved, randState := 0,
    output_handler := none, input_handler := none,
    disable_warnings := false }

/-- Source text of the hello-world program of the source's tests. -/
def helloSource : String := "say \"Hello World\";"

/-- Source text of the division-by-zero program of the source's tests. -/
def divSource : String := "x = 10 / 0;"

/-- Source text of a one-statement printing program. -/
def sayOneSource : String := "say 1;"

/-- Source text of a non-terminating loop. -/
def loopSource : String := "loop forever"

/-- Source text that parses under no grammar. -/
def badSource : String := "####"

/-- Modelled from the spec: a concrete parse function for the handful
of programs the concrete scenarios run, mapping each source text to its
section-4.3 AST; everything else is a parse fault.  It stands in for
the parser body absent from the visible source. -/
def demoParse : ParseFun := fun src =>
  if src = helloSource then .ok (.say (.strLit "Hello World"))
  else if src = divSource then
    .ok (.assign "x" (.binop .div (.intLit 10) (.intLit 0)))
  else if src = sayOneSource then .ok (.say (.intLit 1))
  else if src = loopSource then .ok (.whileS (.boolLit true) .skip)
  else .error (.ParseError ("Could not parse: " ++ src))

/-- The `"stderr"`-stream events of an event list. -/
def stderrOnly (l : List (String × String)) : List (String × String) :=
  l.filter (fun ev => ev.2 == "stderr")

/-- Moving the `i`-th element of a list to the front is a permutation. -/
theorem perm_getElem_cons_eraseIdx {α : Type} :
    ∀ (l : List α) (i : Nat) (h : i < l.length),
      (l[i] :: l.eraseIdx i).Perm l := by
  intro l
  induction l with
  | nil => intro i h; simp at h
  | cons a as ih =>
    intro i h
    cases i with
    | zero => simp
    | succ j =>
      have hj : j < as.length := by simpa using h
      simp only [List.getElem_cons_succ, List.eraseIdx_cons_succ]
      exact (List.Perm.swap a as[j] (as.eraseIdx j)).trans ((ih j hj).cons a)

/-- The shuffle core returns a permutation of its input when the fuel
equals the list length. -/
theorem shuffleGo_perm {α : Type} :
    ∀ (n g : Nat) (l : List α), n = l.length → (shuffleGo n g l).1.Perm l := by
  intro n
  induction n with
  | zero =>
    intro g l h
    cases l with
    | nil => simp [shuffleGo]
    | cons a as => simp at h
  | succ m ih =>
    intro g l h
    cases l with
    | nil => simp at h
    | cons a as =>
      have hpos : 0 < (a :: as).length := by simp
      have hi : g % (a :: as).length < (a :: as).length := Nat.mod_lt _ hpos
      have hget : (a :: as)[g % (a :: as).length]? =
          some ((a :: as)[g % (a :: as).length]) := List.getElem?_eq_getElem hi
      have hlen : m = ((a :: as).eraseIdx (g % (a :: as).length)).length := by
        have := List.length_eraseIdx_add_one hi
        omega
      simp only [shuffleGo, hget]
      exact ((ih (lcgNext g) _ hlen).cons _).trans
        (perm_getElem_cons_eraseIdx _ _ hi)

/-- The modelled `random.shuffle` permutes the catalog. -/
theorem pyShuffle_perm {α : Type} (g : Nat) (l : List α) :
    (pyShuffle g l).Perm l :=
  shuffleGo_perm l.length g l rfl

/-- The shuffled list has the catalog's length. -/
theorem pyShuffleSt_fst_length {α : Type} (g : Nat) (l : List α) :
    (pyShuffleSt g l).1.length = l.length :=
  (pyShuffle_perm g l).length_eq

/-- Inserting an absent key into a dict appends the pair. -/
theorem dictInsert_notMem {α β : Type} [DecidableEq α]
    (d : List (α × β)) (k : α) (v : β) (h : k ∉ d.map Prod.fst) :
    dictInsert d k v = d ++ [(k, v)] := by
  simp [dictInsert, h]

/-- Folding dict insertion over pairs with pairwise-distinct keys keeps
exactly those pairs in order. -/
theorem dictOfPairs_go {α β : Type} [DecidableEq α] :
    ∀ (pairs acc : List (α × β)),
      ((acc ++ pairs).map Prod.fst).Nodup →
      pairs.foldl (fun d p => dictInsert d p.1 p.2) acc = acc ++ pairs := by
  intro pairs
  induction pairs with
  | nil => intro acc _; simp
  | cons p rest ih =>
    intro acc h
    have h' := h
    rw [List.map_append] at h'
    rcases List.nodup_append.mp h' with ⟨_, _, hdisj⟩
    have hk : p.1 ∉ acc.map Prod.fst := by
      intro hmem
      exact hdisj hmem (by simp)
    have h2 : (((acc ++ [p]) ++ rest).map Prod.fst).Nodup := by
      rw [List.append_assoc, List.singleton_append]
      exact h
    rw [List.foldl_cons, dictInsert_notMem _ _ _ hk, ih (acc ++ [p]) h2,
      List.append_assoc, List.singleton_append]

/-- Python `dict(pairs)` is the identity on association lists whose keys
are pairwise distinct. -/
theorem dictOfPairs_eq_self {α β : Type} [DecidableEq α]
    (pairs : List (α × β)) (h : (pairs.map Prod.fst).Nodup) :
    dictOfPairs pairs = pairs := by
  have := dictOfPairs_go pairs [] (by simpa using h)
  simpa [dictOfPairs] using this

/-- Shape of a successful remap build: the PRNG state advances to the
post-shuffle state and the installed reserved map is literally the zip
of the first `orig.length` shuffled keywords with the original token
kinds. -/
theorem apply_random_keywords_ok (orig : List (String × String))
    (catalog : List String) (seed : Nat) (st : ModuleState)
    (hlen : orig.length ≤ catalog.length) (hnd : catalog.Nodup) :
    apply_random_keywords orig catalog seed st =
      .ok ({ st with randState := (pyShuffleSt (seedInit seed) catalog).2,
                     reserved := List.zip
                       ((pyShuffle (seedInit seed) catalog).take orig.length)
                       (orig.map Prod.snd) },
           pyShuffle (seedInit seed) catalog) := by
  have hsl : (pyShuffleSt (seedInit seed) catalog).1.length = catalog.length :=
    pyShuffleSt_fst_length _ _
  have hshufnd : (pyShuffle (seedInit seed) catalog).Nodup :=
    ((pyShuffle_perm (seedInit seed) catalog).nodup_iff).mpr hnd
  have htakelen : ((pyShuffle (seedInit seed) catalog).take orig.length).length
      = orig.length := by
    rw [List.length_take, pyShuffle, hsl]
    omega
  have htakend : ((pyShuffle (seedInit seed) catalog).take orig.length).Nodup :=
    List.Nodup.sublist (List.take_sublist _ _) hshufnd
  have hkeys : ((List.zip ((pyShuffle (seedInit seed) catalog).take orig.length)
      (orig.map Prod.snd)).map Prod.fst).Nodup := by
    rw [List.map_fst_zip]
    · exact htakend
    · rw [htakelen, List.length_map]
  have hdict : dictOfPairs (List.zip
      ((pyShuffle (seedInit seed) catalog).take orig.length)
      (orig.map Prod.snd)) = List.zip
      ((pyShuffle (seedInit seed) catalog).take orig.length)
      (orig.map Prod.snd) := dictOfPairs_eq_self _ hkeys
  have hcond : ¬ ((pyShuffleSt (seedInit seed) catalog).1.length
      < (orig.map Prod.snd).length) := by
    rw [hsl, List.length_map]
    omega
  unfold apply_random_keywords
  simp only [List.length_map, pyShuffle] at hdict ⊢
  rw [if_neg (by rw [hsl]; omega), hdict]

/-- A concrete keyword catalog used by the witnesses. -/
def demoCatalog : List String :=
  ["alpha", "beta", "gamma", "delta", "epsilon", "zeta", "eta", "theta", "iota"]

/-- Claim C4: with a catalog shorter than the original keyword table,
building the remap fails with the configuration-time too-short error
(the spec's `InsufficientKeywordsError` kind, raised by the source as
`InterpreterException`), and the seeded entry flow aborts with that
error before `execute` is entered — no program runs. -/
theorem claim_C4_insufficient_keywords_aborts
    (orig : List (String × String)) (catalog : List String) (seed : Nat)
    (parse : ParseFun) (st : ModuleState) (source : String)
    (mt : Option Nat) (fuel : Nat) (h : catalog.length < orig.length) :
    mainRun orig catalog seed parse st source mt fuel =
      .error (.InterpreterException
        ("Keyword file is too short: Expected at least "
          ++ toString orig.length ++ " keywords, got "
          ++ toString catalog.length ++ ".")) := by
  have hsl : (pyShuffleSt (seedInit seed) catalog).1.length = catalog.length :=
    pyShuffleSt_fst_length _ _
  have herr : apply_random_keywords orig catalog seed st =
      .error (.InterpreterException
        ("Keyword file is too short: Expected at least "
          ++ toString orig.length ++ " keywords, got "
          ++ toString catalog.length ++ ".")) := by
    unfold apply_random_keywords
    simp only [List.length_map, hsl]
    rw [if_pos (by omega)]
  unfold mainRun
  rw [herr]

/-- Witness for C4 at a concrete one-word catalog. -/
theorem claim_C4_witness :
    mainRun _original_reserved ["alpha"] 7 demoParse initState sayOneSource
      none 5 =
      .error (.InterpreterException
        ("Keyword file is too short: Expected at least "
          ++ toString _original_reserved.length ++ " keywords, got "
          ++ toString (["alpha"] : List String).length ++ ".")) :=
  claim_C4_insufficient_keywords_aborts _original_reserved ["alpha"] 7
    demoParse initState sayOneSource none 5 (by decide)

/-- Claim C5: the remap build is a function of catalog and seed alone —
two builds with the same catalog and seed from arbitrary (and
arbitrarily different) prior module states produce the same reserved
map and the same keyword list, because the generator is reseeded from
the given seed before the shuffle. -/
theorem claim_C5_remap_deterministic
    (orig : List (String × String)) (catalog : List String) (seed : Nat)
    (st₁ st₂ : ModuleState) :
    resultView (apply_random_keywords orig catalog seed st₁) =
      resultView (apply_random_keywords orig catalog seed st₂) := by
  unfold apply_random_keywords
  by_cases hc : (pyShuffleSt (seedInit seed) catalog).1.length
      < (orig.map Prod.snd).length
  · simp only [List.length_map] at hc ⊢
    rw [if_pos (by omega), if_pos (by omega)]
  · simp only [List.length_map] at hc ⊢
    rw [if_neg (by omega), if_neg (by omega)]
    rfl

/-- Claim C6: with a large-enough catalog, the remap build shuffles the
catalog with the generator seeded exactly from the given seed (the
returned keyword list is a permutation of the catalog), takes the first
`orig.length` entries of the shuffled catalog, zips them 1:1 in order
with the original token kinds in their stable order, and those pairs
are exactly the installed map's contents. -/
theorem claim_C6_remap_zip_structure
    (orig : List (String × String)) (catalog : List String) (seed : Nat)
    (st : ModuleState) (hlen : orig.length ≤ catalog.length)
    (hnd : catalog.Nodup) :
    (pyShuffle (seedInit seed) catalog).Perm catalog ∧
    apply_random_keywords orig catalog seed st =
      .ok ({ st with randState := (pyShuffleSt (seedInit seed) catalog).2,
                     reserved := List.zip
                       ((pyShuffle (seedInit seed) catalog).take orig.length)
                       (orig.map Prod.snd) },
           pyShuffle (seedInit seed) catalog) :=
  ⟨pyShuffle_perm _ _, apply_random_keywords_ok orig catalog seed st hlen hnd⟩

/-- Witness for C6 at a concrete catalog and seed. -/
theorem claim_C6_witness :
    (pyShuffle (seedInit 3) demoCatalog).Perm demoCatalog ∧
    apply_random_keywords _original_reserved demoCatalog 3 initState =
      .ok ({ initState with
               randState := (pyShuffleSt (seedInit 3) demoCatalog).2,
               reserved := List.zip
                 ((pyShuffle (seedInit 3) demoCatalog).take
                   _original_reserved.length)
                 (_original_reserved.map Prod.snd) },
           pyShuffle (seedInit 3) demoCatalog) :=
  claim_C6_remap_zip_structure _original_reserved demoCatalog 3 initState
    (by decide) (by decide)

/-- Claim C7: with a large-enough duplicate-free catalog, the produced
reserved map is a bijection — its keywords are pairwise distinct and
its token kinds are exactly the required kinds, each covered once. -/
theorem claim_C7_remap_bijection
    (orig : List (String × String)) (catalog : List String) (seed : Nat)
    (st : ModuleState) (hlen : orig.length ≤ catalog.length)
    (hnd : catalog.Nodup) :
    ∃ st' ks, apply_random_keywords orig catalog seed st = .ok (st', ks) ∧
      (st'.reserved.map Prod.fst).Nodup ∧
      st'.reserved.map Prod.snd = orig.map Prod.snd := by
  have htakelen : ((pyShuffle (seedInit seed) catalog).take orig.length).length
      = orig.length := by
    rw [List.length_take, (pyShuffle_perm (seedInit seed) catalog).length_eq]
    omega
  refine ⟨_, _, apply_random_keywords_ok orig catalog seed st hlen hnd, ?_, ?_⟩
  · rw [List.map_fst_zip _ _ (by rw [htakelen, List.length_map])]
    exact List.Nodup.sublist (List.take_sublist _ _)
      (((pyShuffle_perm (seedInit seed) catalog).nodup_iff).mpr hnd)
  · exact List.map_snd_zip _ _ (by rw [htakelen, List.length_map])

/-- Witness for C7 at a concrete catalog and seed. -/
theorem claim_C7_witness :
    ∃ st' ks, apply_random_keywords _original_reserved demoCatalog 5 initState
        = .ok (st', ks) ∧
      (st'.reserved.map Prod.fst).Nodup ∧
      st'.reserved.map Prod.snd = _original_reserved.map Prod.snd :=
  claim_C7_remap_bijection _original_reserved demoCatalog 5 initState
    (by decide) (by decide)

@[simp] theorem ERes.stateOf_ok {α : Type} (a : α) (s : EvalSt) :
    (ERes.ok a s).stateOf = s := rfl

@[simp] theorem ERes.stateOf_err {α : Type} (e : MambaError) (s : EvalSt) :
    (ERes.err (α := α) e s).stateOf = s := rfl

@[simp] theorem ERes.stateOf_fuelOut {α : Type} (s : EvalSt) :
    (ERes.fuelOut (α := α) s).stateOf = s := rfl

@[simp] theorem tick_time (s : EvalSt) : (tick s).time = s.time + 1 := rfl

@[simp] theorem tick_log (s : EvalSt) : (tick s).log = s.log := rfl

@[simp] theorem setVar_time (n : String) (v : RuntimeValue) (s : EvalSt) :
    (setVar n v s).time = s.time := rfl

@[simp] theorem setVar_log (n : String) (v : RuntimeValue) (s : EvalSt) :
    (setVar n v s).log = s.log := rfl

@[simp] theorem emit_time (msg stream : String) (s : EvalSt) :
    (emit msg stream s).time = s.time := by
  unfold emit
  cases s.mstate.output_handler <;> rfl

@[simp] theorem stderrOnly_append_stdout (l : List (String × String))
    (m : String) : stderrOnly (l ++ [(m, "stdout")]) = stderrOnly l := by
  have hb : ((m, "stdout").2 == "stderr") = false := rfl
  simp [stderrOnly, List.filter_append, List.filter_cons, hb]

@[simp] theorem stderrOnly_append_stderr (l : List (String × String))
    (m : String) :
    stderrOnly (l ++ [(m, "stderr")]) = stderrOnly l ++ [(m, "stderr")] := by
  have hb : ((m, "stderr").2 == "stderr") = true := rfl
  simp [stderrOnly, List.filter_append, List.filter_cons, hb]

/-- Emitting on the stdout stream leaves the stderr-filtered handler
events unchanged, whichever handler is installed. -/
theorem stderrOnly_emit_stdout (msg : String) (s : EvalSt) :
    stderrOnly (emit msg "stdout" s).log.handlerEvents
      = stderrOnly s.log.handlerEvents := by
  unfold emit
  cases s.mstate.output_handler <;> simp

/-- The evaluator's clock never decreases. -/
theorem evalStmt_time_mono (dl : Option Nat) :
    ∀ (fuel : Nat) (stmt : Stmt) (s : EvalSt),
      s.time ≤ ((evalStmt dl fuel stmt s).stateOf).time := by
  intro fuel
  induction fuel with
  | zero =>
    intro stmt s
    simp only [evalStmt]
    split <;> simp
  | succ n ih =>
    intro stmt s
    simp only [evalStmt]
    split
    · simp
    · split
      · simp
      · -- seq
        rename_i a b
        split
        · rename_i u s2 hab
          have h1 := ih a (tick s)
          rw [hab] at h1
          have h2 := ih b s2
          simp only [ERes.stateOf_ok, tick_time] at h1
          omega
        · rename_i r hab
          have h1 := ih a (tick s)
          simp only [tick_time] at h1
          omega
      · -- assign
        split
        · simp
        · simp
      · -- say
        split
        · simp
        · simp only [ERes.stateOf_ok, emit_time, tick_time]
          omega
      · -- ifelse
        rename_i c a b
        split
        · simp
        · split
          · simp
          · have h1 := ih a (tick s)
            simp only [tick_time] at h1
            omega
          · have h1 := ih b (tick s)
            simp only [tick_time] at h1
            omega
      · -- whileS
        rename_i c body
        split
        · simp
        · split
          · simp
          · simp
          · split
            · rename_i u s2 hb
              have h1 := ih body (tick s)
              rw [hb] at h1
              have h2 := ih (.whileS c body) s2
              simp only [ERes.stateOf_ok, tick_time] at h1
              omega
            · rename_i r hb
              have h1 := ih body (tick s)
              simp only [tick_time] at h1
              omega

@[simp] theorem ERes.isFuelOut_ok {α : Type} (a : α) (s : EvalSt) :
    (ERes.ok a s).isFuelOut = false := rfl

@[simp] theorem ERes.isFuelOut_err {α : Type} (e : MambaError) (s : EvalSt) :
    (ERes.err (α := α) e s).isFuelOut = false := rfl

/-- Statement evaluation delivers handler events only on the stdout
stream: the stderr-filtered handler-event list never changes inside the
evaluator (faults are raised, not printed, and reported once by the
driver). -/
theorem evalStmt_stderr_invariant (dl : Option Nat) :
    ∀ (fuel : Nat) (stmt : Stmt) (s : EvalSt),
      stderrOnly ((evalStmt dl fuel stmt s).stateOf).log.handlerEvents
        = stderrOnly s.log.handlerEvents := by
  intro fuel
  induction fuel with
  | zero =>
    intro stmt s
    simp only [evalStmt]
    split <;> simp
  | succ n ih =>
    intro stmt s
    simp only [evalStmt]
    split
    · simp
    · split
      · simp
      · -- seq
        rename_i a b
        split
        · rename_i u s2 hab
          have h1 := ih a (tick s)
          rw [hab] at h1
          simp only [ERes.stateOf_ok, tick_log] at h1
          exact (ih b s2).trans h1
        · rename_i r hab
          have h1 := ih a (tick s)
          simp only [tick_log] at h1
          exact h1
      · -- assign
        split
        · simp
        · simp
      · -- say
        split
        · simp
        · rename_i v hv
          simp only [ERes.stateOf_ok]
          rw [stderrOnly_emit_stdout]
          simp
      · -- ifelse
        rename_i c a b
        split
        · simp
        · split
          · simp
          · have h1 := ih a (tick s)
            simp only [tick_log] at h1
            exact h1
          · have h1 := ih b (tick s)
            simp only [tick_log] at h1
            exact h1
      · -- whileS
        rename_i c body
        split
        · simp
        · split
          · simp
          · simp
          · split
            · rename_i u s2 hb
              have h1 := ih body (tick s)
              rw [hb] at h1
              simp only [ERes.stateOf_ok, tick_log] at h1
              exact (ih (.whileS c body) s2).trans h1
            · rename_i r hb
              have h1 := ih body (tick s)
              simp only [tick_log] at h1
              exact h1

/-- With a configured deadline `d` and fuel exceeding the remaining
budget `d - time`, evaluation never exhausts its fuel: the deadline
check fires first.  This is the termination half of the execution
budget: the evaluator decides every program in at most `d` ticks. -/
theorem evalStmt_no_fuelOut (d : Nat) :
    ∀ (fuel : Nat) (stmt : Stmt) (s : EvalSt), d - s.time < fuel →
      (evalStmt (some d) fuel stmt s).isFuelOut = false := by
  intro fuel
  induction fuel with
  | zero =>
    intro stmt s h
    exact absurd h (Nat.not_lt_zero _)
  | succ n ih =>
    intro stmt s h
    simp only [evalStmt]
    split
    · simp
    · rename_i hct
      have hst : ¬ d ≤ s.time := by
        intro hdd
        simp [checkTime, hdd] at hct
      split
      · simp
      · -- seq
        rename_i a b
        split
        · rename_i u s2 hab
          have hm := evalStmt_time_mono (some d) n a (tick s)
          rw [hab] at hm
          simp only [ERes.stateOf_ok, tick_time] at hm
          exact ih b s2 (by omega)
        · rename_i r hab
          exact ih a (tick s) (by simp only [tick_time]; omega)
      · -- assign
        split
        · simp
        · simp
      · -- say
        split
        · simp
        · simp
      · -- ifelse
        rename_i c a b
        split
        · simp
        · split
          · simp
          · exact ih a (tick s) (by simp only [tick_time]; omega)
          · exact ih b (tick s) (by simp only [tick_time]; omega)
      · -- whileS
        rename_i c body
        split
        · simp
        · split
          · simp
          · simp
          · split
            · rename_i u s2 hb
              have hm := evalStmt_time_mono (some d) n body (tick s)
              rw [hb] at hm
              simp only [ERes.stateOf_ok, tick_time] at hm
              exact ih (.whileS c body) s2 (by omega)
            · rename_i r hb
              exact ih body (tick s) (by simp only [tick_time]; omega)

/-- Builtin pre-registration never writes to the event log. -/
theorem declareAll_log :
    ∀ (ns : List String) (s : EvalSt),
      ((declareAll ns s).stateOf).log = s.log := by
  intro ns
  induction ns with
  | nil => intro s; rfl
  | cons n rest ih =>
    intro s
    by_cases hn : n ∈ s.mstate.symbols_functions
    · simp [declareAll, declareFunction, hn, ERes.stateOf]
    · simp [declareAll, declareFunction, hn, ih]

/-- The whole pipeline (parse, builtin pre-registration, evaluation)
delivers no handler event on the stderr stream; faults surface only as
the raised error the driver formats. -/
theorem executePipeline_stderr (parse : ParseFun) (dl : Option Nat)
    (fuel : Nat) (source : String) (s : EvalSt) :
    stderrOnly (((executePipeline parse dl fuel source s).stateOf).log.handlerEvents)
      = stderrOnly s.log.handlerEvents := by
  unfold executePipeline
  cases hp : parse source with
  | error e => rfl
  | ok prog =>
    cases hd : declare_env s with
    | ok u s1 =>
      have hl : s1.log = s.log := by
        have hdl := declareAll_log builtin_functions s
        rw [show declareAll builtin_functions s = declare_env s from rfl, hd]
          at hdl
        exact hdl
      rw [evalStmt_stderr_invariant, hl]
    | err e s1 =>
      have hl : s1.log = s.log := by
        have hdl := declareAll_log builtin_functions s
        rw [show declareAll builtin_functions s = declare_env s from rfl, hd]
          at hdl
        exact hdl
      simp [ERes.stateOf, hl]
    | fuelOut s1 =>
      have hl : s1.log = s.log := by
        have hdl := declareAll_log builtin_functions s
        rw [show declareAll builtin_functions s = declare_env s from rfl, hd]
          at hdl
        exact hdl
      simp [ERes.stateOf, hl]

/-- Claim C10: whatever combination of handlers is supplied or omitted,
and whether the run completes or faults (raised or not), `execute`
restores the module-level output and input handlers to exactly the
values they held immediately before the call. -/
theorem claim_C10_handlers_restored (parse : ParseFun) (st : ModuleState)
    (source : String) (dw : Bool) (rs : Option Nat) (rss : Bool)
    (outH inH : Option Nat) (mt : Option Nat) (fuel : Nat) :
    (execute parse st source dw rs rss outH inH mt fuel).state.output_handler
        = st.output_handler ∧
    (execute parse st source dw rs rss outH inH mt fuel).state.input_handler
        = st.input_handler := by
  unfold execute
  split <;> simp [restoreHandlers]

/-- Claim C9: when the pipeline of a non-strict run with a supplied
handler fails with any error (lexical, parse, or runtime), the handler
receives exactly one `(message, "stderr")` event for the run, and the
message is the error kind name, a colon and a space, then the
human-readable text. -/
theorem claim_C9_single_stderr_diagnostic (parse : ParseFun)
    (st : ModuleState) (source : String) (rs : Option Nat) (rss : Bool)
    (k : Nat) (inH : Option Nat) (mt : Option Nat) (fuel : Nat)
    (e : MambaError)
    (h : (executePipeline parse (deadlineOf mt) fuel source
        (initEvalSt (runStateOf st true rs rss (some k) inH))).errorOf
          = some e) :
    stderrOnly (execute parse st source true rs rss (some k) inH mt
        fuel).log.handlerEvents
      = [(className e ++ ": " ++ errMessage e, "stderr")] := by
  simp only [execute]
  revert h
  cases hp : executePipeline parse (deadlineOf mt) fuel source
      (initEvalSt (runStateOf st true rs rss (some k) inH)) with
  | ok u s =>
    intro h
    simp [ERes.errorOf] at h
  | fuelOut s =>
    intro h
    simp [ERes.errorOf] at h
  | err e2 s =>
    intro h
    simp only [ERes.errorOf, Option.some.injEq] at h
    subst h
    have hse := executePipeline_stderr parse (deadlineOf mt) fuel source
      (initEvalSt (runStateOf st true rs rss (some k) inH))
    rw [hp] at hse
    simp only [ERes.stateOf_err] at hse
    simp only [Option.isSome_some, if_true]
    rw [stderrOnly_append_stderr, hse]
    simp [initEvalSt, stderrOnly, formatError]

/-- Witness for C9: a failing parse delivers exactly the one formatted
stderr event. -/
theorem claim_C9_witness :
    stderrOnly (execute demoParse initState badSource true none false (some 0)
        none none 3).log.handlerEvents
      = [(className (.ParseError "Could not parse: ####") ++ ": "
          ++ errMessage (.ParseError "Could not parse: ####"), "stderr")] :=
  claim_C9_single_stderr_diagnostic demoParse initState badSource none false 0
    none none 3 (.ParseError "Could not parse: ####") (by decide)

/-- Counterexample to claim C3 as stated: in strict mode
(`disable_warnings = False`) with a handler supplied, a faulting run
both delivers the formatted fault to the handler's stderr stream and
raises it to the caller — the two reporting channels are used for the
same fault, contradicting "raised ... and is not also delivered". -/
theorem claim_C3_counterexample :
    (execute demoParse initState badSource false none false (some 0) none none
        10).log.handlerEvents
      = [("ParseError: Could not parse: ####", "stderr")] ∧
    (execute demoParse initState badSource false none false (some 0) none none
        10).raised = some (.ParseError "Could not parse: ####") := by
  refine ⟨by decide, by decide⟩

/-- Claim C3 as amended: a fault of a run with a supplied handler is
always delivered to the handler's stderr stream; in strict mode it is
additionally raised to the caller, and in non-strict mode it is not
raised. -/
theorem claim_C3_amended_both_channels (parse : ParseFun) (st : ModuleState)
    (source : String) (dw : Bool) (rs : Option Nat) (rss : Bool) (k : Nat)
    (inH : Option Nat) (mt : Option Nat) (fuel : Nat) (e : MambaError)
    (h : (executePipeline parse (deadlineOf mt) fuel source
        (initEvalSt (runStateOf st dw rs rss (some k) inH))).errorOf
          = some e) :
    (formatError e, "stderr") ∈
        (execute parse st source dw rs rss (some k) inH mt
          fuel).log.handlerEvents ∧
    (execute parse st source dw rs rss (some k) inH mt fuel).raised
      = (if dw then none else some e) := by
  simp only [execute]
  revert h
  cases hp : executePipeline parse (deadlineOf mt) fuel source
      (initEvalSt (runStateOf st dw rs rss (some k) inH)) with
  | ok u s =>
    intro h
    simp [ERes.errorOf] at h
  | fuelOut s =>
    intro h
    simp [ERes.errorOf] at h
  | err e2 s =>
    intro h
    simp only [ERes.errorOf, Option.some.injEq] at h
    subst h
    constructor
    · simp
    · simp

/-- Witness for the amended C3 in strict mode. -/
theorem claim_C3_amended_witness :
    (formatError (.ParseError "Could not parse: ####"), "stderr") ∈
        (execute demoParse initState badSource false none false (some 0) none
          none 3).log.handlerEvents ∧
    (execute demoParse initState badSource false none false (some 0) none none
        3).raised
      = (if false then none
         else some (MambaError.ParseError "Could not parse: ####")) :=
  claim_C3_amended_both_channels demoParse initState badSource false none false
    0 none none 3 (.ParseError "Could not parse: ####") (by decide)

/-- Claim C8: the evaluator checks the deadline at every statement
entry and every loop re-entry (a statement evaluated at or past the
deadline immediately reports the timeout fault without running), the
deadline bound means evaluation never needs more than the remaining
budget of steps (no fuel exhaustion once the fuel exceeds it, so every
program, including non-terminating loops, is decided), and a
non-terminating loop run through `execute` with a deadline reports
`TimeoutError` through the error channel. -/
theorem claim_C8_timeout_enforced :
    (∀ (d fuel : Nat) (stmt : Stmt) (s : EvalSt), d ≤ s.time →
        evalStmt (some d) fuel stmt s = .err timeoutError s) ∧
    (∀ (d fuel : Nat) (stmt : Stmt) (s : EvalSt), d - s.time < fuel →
        (evalStmt (some d) fuel stmt s).isFuelOut = false) ∧
    (execute demoParse initState loopSource true none false (some 0) none
        (some 2) 10).log.handlerEvents
      = [("TimeoutError: Maximum execution time exceeded", "stderr")] := by
  refine ⟨?_, fun d fuel stmt s h => evalStmt_no_fuelOut d fuel stmt s h,
    by decide⟩
  intro d fuel stmt s hds
  cases fuel with
  | zero => simp [evalStmt, checkTime, hds]
  | succ n => simp [evalStmt, checkTime, hds]

/-- A state one tick past a deadline of one, for the C8 witness. -/
def demoLateSt : EvalSt := tick (initEvalSt initState)

/-- Witness for C8: the deadline check fires on a concrete late state,
and a concrete infinite loop under a deadline never exhausts its fuel. -/
theorem claim_C8_witness :
    evalStmt (some 1) 5 .skip demoLateSt = .err timeoutError demoLateSt ∧
    (evalStmt (some 3) 9 (.whileS (.boolLit true) .skip)
        (initEvalSt initState)).isFuelOut = false :=
  ⟨claim_C8_timeout_enforced.1 1 5 .skip demoLateSt (by decide),
   claim_C8_timeout_enforced.2.1 3 9 (.whileS (.boolLit true) .skip)
     (initEvalSt initState) (by decide)⟩

/-- Claim C1 is violated by the code: reproducing the source's own test
sequence (`test_mamba_hello_world` then `test_mamba_runtime_error_capture`
in the same process), the division-by-zero program's run delivers
exactly one stderr event whose message is the duplicate-symbol
diagnostic — it does not begin with the arithmetic error kind.  In a
fresh process the same program does produce the arithmetic error kind,
exhibiting the latent state-dependence. -/
theorem claim_C1_division_error_event :
    ((execute demoParse
        (execute demoParse initState helloSource true none false (some 0) none
          none 10).state
        divSource true none false (some 1) none none 10).log.handlerEvents
      = [("DuplicateSymbol: Cannot redeclare function 'int'", "stderr")]) ∧
    beginsWith "ArithmeticError"
        "DuplicateSymbol: Cannot redeclare function 'int'" = false ∧
    (execute demoParse initState divSource true none false (some 1) none none
        10).log.handlerEvents
      = [("ArithmeticError: Division by zero", "stderr")] := by
  refine ⟨by decide, by decide, by decide⟩

/-- Claim C2 is violated by the code: running the same one-statement
program twice through `execute` in the same process gives different
observable behavior — the first run prints, the second faults during
builtin pre-registration because the first run's symbol declarations
are still visible in the module-global symbol table. -/
theorem claim_C2_rerun_isolation :
    ((execute demoParse initState sayOneSource true none false (some 0) none
        none 10).log.handlerEvents = [("1", "stdout")]) ∧
    ((execute demoParse
        (execute demoParse initState sayOneSource true none false (some 0) none
          none 10).state
        sayOneSource true none false (some 0) none none 10).log.handlerEvents
      = [("DuplicateSymbol: Cannot redeclare function 'int'", "stderr")]) ∧
    (execute demoParse initState sayOneSource true none false (some 0) none
        none 10).log ≠
      (execute demoParse
        (execute demoParse initState sayOneSource true none false (some 0) none
          none 10).state
        sayOneSource true none false (some 0) none none 10).log := by
  refine ⟨by decide, by decide, by decide⟩
